import Mathlib

/-!
# Verification of the `pipebuf_mio` stream connectors

Shallow embedding of `src/lib.rs`, `src/tcpstream.rs` and
`src/unixstream.rs`.  The pipe-buffer and the `mio` stream types are
external collaborators; they are modelled from the interface the spec
describes (§3, §6): the duplex buffer is a pair of sides with byte
sequences and terminal flags, and the transport is modelled by
explicit scripts of syscall results (one entry per syscall the
connector would issue).
-/

namespace PipebufMio

/-- The error kinds of `std::io::ErrorKind` that the connectors
distinguish; every other kind is collapsed into `other`. -/
inductive ErrorKind where
  | wouldBlock
  | interrupted
  | connectionReset
  | connectionAborted
  | other (code : Nat)
deriving DecidableEq, Repr

/-- `std::io::Result`: either a value or an `ErrorKind`. -/
abbrev IOResult (α : Type) := Except ErrorKind α

/-- `std::net::Shutdown`. -/
inductive Shutdown where
  | write
  | read
  | both
deriving DecidableEq, Repr

/-- Is this result an `Interrupted` error?  Used by the `retry!`
macro's loop condition. -/
def isInterrupted {α : Type} (r : IOResult α) : Bool :=
  match r with
  | Except.error ErrorKind.interrupted => true
  | _ => false

/-- A script for a syscall wrapped in `retry!`: a finite prefix of
results the loop may consume, plus a final result.  The real loop
spins until a non-`Interrupted` result appears; the final entry
stands for the first such result (field `2`), with possible
`Interrupted` noise before it (field `1`). -/
abbrev RetryScript := List (IOResult Unit) × IOResult Unit

/-- Model of the `retry!` macro of `src/lib.rs`: keep re-issuing the
call while it fails with `Interrupted`; the first non-`Interrupted`
result is returned. -/
def retryResult (s : RetryScript) : IOResult Unit :=
  (s.1.find? (fun r => !(isInterrupted r))).getD s.2

/-- Modelled from the spec: the duplex pipe-buffer handle (`PBufRdWr`
of the external `pipebuf` crate).  The outgoing (`rd`) side is an
ordered byte sequence awaiting transmission plus a pending
end-of-data flag and an aborted flag; the incoming (`wr`) side is a
sink of bytes plus an end-of-data-observed flag and an abort flag
(spec §3, §6). -/
structure PBuf where
  rdData : List Nat
  rdPendingEof : Bool
  rdAborted : Bool
  wrData : List Nat
  wrClosed : Bool
  wrAborted : Bool
deriving DecidableEq, Repr

namespace PBuf

/-- Modelled from the spec: `PBufRd::has_pending_eof` — the pending
end-of-data flag on the outgoing side. -/
def hasPendingEof (p : PBuf) : Bool := p.rdPendingEof

/-- Modelled from the spec: `PBufRd::is_aborted` — the aborted flag on
the outgoing side. -/
def isAborted (p : PBuf) : Bool := p.rdAborted

/-- Modelled from the spec: `PBufRd::consume_eof` — mark the pending
end-of-data condition as consumed. -/
def consumeEof (p : PBuf) : PBuf := { p with rdPendingEof := false }

/-- Modelled from the spec: `PBufWr::is_eof` — has the incoming side
already recorded end-of-data (by graceful close or abort)? -/
def wrIsEof (p : PBuf) : Bool := p.wrClosed || p.wrAborted

/-- Modelled from the spec: `PBufWr::abort` — set the incoming side's
abort flag. -/
def wrAbort (p : PBuf) : PBuf := { p with wrAborted := true }

/-- Modelled from the spec: the observable state of the outgoing side
captured by `PBufRd::tripwire` (bytes still queued and terminal
flags). -/
def rdSnapshot (p : PBuf) : List Nat × Bool × Bool :=
  (p.rdData, p.rdPendingEof, p.rdAborted)

/-- Modelled from the spec: `PBufRd::is_tripped` — did the outgoing
side change relative to the snapshot? -/
def rdTripped (t : List Nat × Bool × Bool) (p : PBuf) : Bool :=
  decide (t ≠ rdSnapshot p)

/-- Modelled from the spec: the observable state of the incoming side
captured by `PBufWr::tripwire`. -/
def wrSnapshot (p : PBuf) : List Nat × Bool × Bool :=
  (p.wrData, p.wrClosed, p.wrAborted)

/-- Modelled from the spec: `PBufWr::is_tripped` — did the incoming
side change relative to the snapshot? -/
def wrTripped (t : List Nat × Bool × Bool) (p : PBuf) : Bool :=
  decide (t ≠ wrSnapshot p)

end PBuf

/-- Modelled from the spec: `PBufRd::output_to(stream, false)` — write
all currently-queued outgoing bytes to the stream, one write syscall
per script entry (`ok n` = the stream accepted `n` bytes, `error k` =
the syscall failed).  Returns the overall result, the bytes still
queued, and the number of write syscalls issued. -/
def outputTo : List (IOResult Nat) → List Nat → IOResult Unit × List Nat × Nat
  | _, [] => (Except.ok (), [], 0)
  | [], data => (Except.ok (), data, 0)
  | Except.error k :: _, data => (Except.error k, data, 1)
  | Except.ok n :: rest, data =>
    if n = 0 then (Except.ok (), data, 1)
    else
      let r := outputTo rest (data.drop n)
      (r.1, r.2.1, r.2.2 + 1)

/-- Modelled from the spec: `PBufWr::input_from(stream, max)` — one
read syscall of up to `max` bytes.  The script value `ok avail` is the
data the transport currently offers (the syscall returns at most `max`
of it); an empty read records the peer's graceful close as the
end-of-data flag on the incoming side. -/
def inputFrom (res : IOResult (List Nat)) (max : Nat) (p : PBuf) :
    IOResult Unit × PBuf :=
  match res with
  | Except.error k => (Except.error k, p)
  | Except.ok avail =>
    let chunk := avail.take max
    if chunk.isEmpty then (Except.ok (), { p with wrClosed := true })
    else (Except.ok (), { p with wrData := p.wrData ++ chunk })

/-- The transport-side behaviour one `process_out` call can observe:
results for the (optional) `set_nodelay` syscall, the write syscalls,
and the `shutdown` syscall. -/
structure OutScript where
  nodelayScript : RetryScript
  writeScript : List (IOResult Nat)
  shutdownScript : RetryScript

/-- The transport effects of one `process_out` call: which value (if
any) was passed to `set_nodelay`, how many write syscalls were issued,
which shutdown direction (if any) was requested, and whether the
shutdown syscall succeeded. -/
structure OutEffects where
  nodelayApplied : Option Bool
  writeSyscalls : Nat
  shutdownAttempt : Option Shutdown
  shutdownOk : Bool
deriving DecidableEq, Repr

/-- The effects of a `process_out` call that performed no I/O at all. -/
def OutEffects.idle : OutEffects := ⟨none, 0, none, false⟩

/-- The transport effects of one `process_in` call: whether a read
syscall was issued. -/
structure InEffects where
  readAttempted : Bool
deriving DecidableEq, Repr

/-- The connector state of `TcpLink` (src/tcpstream.rs). -/
structure TcpLink where
  max_read_unit : Nat
  nodelay : Bool
  pause_writes : Bool
  pause_reads : Bool
  pending_set_nodelay : Bool
deriving DecidableEq, Repr

namespace TcpLink

/-- `TcpLink::new`. -/
def new : TcpLink :=
  { max_read_unit := 2048
    nodelay := false
    pause_writes := true
    pause_reads := true
    pending_set_nodelay := false }

/-- `TcpLink::set_max_read_unit`. -/
def set_max_read_unit (l : TcpLink) (m : Nat) : TcpLink :=
  { l with max_read_unit := m }

/-- `TcpLink::set_nodelay`. -/
def set_nodelay (l : TcpLink) (nd : Bool) : TcpLink :=
  if l.nodelay ≠ nd then { l with nodelay := nd, pending_set_nodelay := true }
  else l

/-- `TcpLink::set_pause_writes`. -/
def set_pause_writes (l : TcpLink) (pause : Bool) : TcpLink :=
  { l with pause_writes := pause }

/-- `TcpLink::set_pause_reads`. -/
def set_pause_reads (l : TcpLink) (pause : Bool) : TcpLink :=
  { l with pause_reads := pause }

/-- `TcpLink::process_out` (src/tcpstream.rs lines 135-172), with the
stream's syscall results given by the script and the syscalls issued
reported as `OutEffects`. -/
def process_out (l : TcpLink) (s : OutScript) (p : PBuf) :
    IOResult Bool × TcpLink × PBuf × OutEffects :=
  if l.pause_writes then (Except.ok false, l, p, OutEffects.idle)
  else
    let l2 : TcpLink :=
      if l.pending_set_nodelay then { l with pending_set_nodelay := false } else l
    let ndAp : Option Bool := if l.pending_set_nodelay then some l.nodelay else none
    let ndRes : IOResult Unit :=
      if l.pending_set_nodelay then retryResult s.nodelayScript else Except.ok ()
    match ndRes with
    | Except.error e => (Except.error e, l2, p, { OutEffects.idle with nodelayApplied := ndAp })
    | Except.ok _ =>
      let trip := p.rdSnapshot
      let w := outputTo s.writeScript p.rdData
      let p1 : PBuf := { p with rdData := w.2.1 }
      match w.1 with
      | Except.error k =>
        if k = ErrorKind.wouldBlock then
          (Except.ok (PBuf.rdTripped trip p1), l2, p1, ⟨ndAp, w.2.2, none, false⟩)
        else
          (Except.error k, l2, p1, ⟨ndAp, w.2.2, none, false⟩)
      | Except.ok _ =>
        if p1.rdData.isEmpty && p1.hasPendingEof then
          let sdp : Shutdown × PBuf :=
            if p1.isAborted then (Shutdown.both, p1.wrAbort)
            else (Shutdown.write, p1)
          match retryResult s.shutdownScript with
          | Except.error k =>
            if k = ErrorKind.wouldBlock then
              (Except.ok (PBuf.rdTripped trip sdp.2), l2, sdp.2, ⟨ndAp, w.2.2, some sdp.1, false⟩)
            else
              (Except.error k, l2, sdp.2, ⟨ndAp, w.2.2, some sdp.1, false⟩)
          | Except.ok _ =>
            let p3 := sdp.2.consumeEof
            (Except.ok (PBuf.rdTripped trip p3), l2, p3, ⟨ndAp, w.2.2, some sdp.1, true⟩)
        else
          (Except.ok (PBuf.rdTripped trip p1), l2, p1, ⟨ndAp, w.2.2, none, false⟩)

/-- `TcpLink::process_in` (src/tcpstream.rs lines 182-197). -/
def process_in (l : TcpLink) (r : IOResult (List Nat)) (p : PBuf) :
    IOResult Bool × PBuf × InEffects :=
  if l.pause_reads || p.wrIsEof then (Except.ok false, p, ⟨false⟩)
  else
    let trip := p.wrSnapshot
    let res := inputFrom r l.max_read_unit p
    match res.1 with
    | Except.ok _ => (Except.ok (PBuf.wrTripped trip res.2), res.2, ⟨true⟩)
    | Except.error k =>
      match k with
      | ErrorKind.connectionReset =>
        (Except.ok (PBuf.wrTripped trip res.2.wrAbort), res.2.wrAbort, ⟨true⟩)
      | ErrorKind.connectionAborted =>
        (Except.ok (PBuf.wrTripped trip res.2.wrAbort), res.2.wrAbort, ⟨true⟩)
      | ErrorKind.wouldBlock => (Except.ok (PBuf.wrTripped trip res.2), res.2, ⟨true⟩)
      | _ => (Except.error k, res.2, ⟨true⟩)

/-- `TcpLink::process` (src/tcpstream.rs lines 122-126): outbound
transfer first, then inbound, `?` propagating the first error. -/
def process (l : TcpLink) (s : OutScript) (r : IOResult (List Nat)) (p : PBuf) :
    IOResult Bool × TcpLink × PBuf × OutEffects × InEffects :=
  match l.process_out s p with
  | (Except.error e, l1, p1, oe) => (Except.error e, l1, p1, oe, ⟨false⟩)
  | (Except.ok a, l1, p1, oe) =>
    match l1.process_in r p1 with
    | (Except.error e, p2, ie) => (Except.error e, l1, p2, oe, ie)
    | (Except.ok b, p2, ie) => (Except.ok (a || b), l1, p2, oe, ie)

end TcpLink

/-- The connector state of `UnixStreamLink` (src/unixstream.rs). -/
structure UnixStreamLink where
  max_read_unit : Nat
  pause_writes : Bool
  pause_reads : Bool
deriving DecidableEq, Repr

namespace UnixStreamLink

/-- `UnixStreamLink::new`. -/
def new : UnixStreamLink :=
  { max_read_unit := 2048
    pause_writes := true
    pause_reads := true }

/-- `UnixStreamLink::set_max_read_unit`. -/
def set_max_read_unit (l : UnixStreamLink) (m : Nat) : UnixStreamLink :=
  { l with max_read_unit := m }

/-- `UnixStreamLink::set_pause_writes`. -/
def set_pause_writes (l : UnixStreamLink) (pause : Bool) : UnixStreamLink :=
  { l with pause_writes := pause }

/-- `UnixStreamLink::set_pause_reads`. -/
def set_pause_reads (l : UnixStreamLink) (pause : Bool) : UnixStreamLink :=
  { l with pause_reads := pause }

/-- `UnixStreamLink::process_out` (src/unixstream.rs lines 94-125).
It takes the same script type as the TCP variant; the `set_nodelay`
part of the script is never consulted.  Note the abort propagation is
guarded by `!pbuf.wr.is_eof()`, unlike the TCP variant. -/
def process_out (l : UnixStreamLink) (s : OutScript) (p : PBuf) :
    IOResult Bool × UnixStreamLink × PBuf × OutEffects :=
  if l.pause_writes then (Except.ok false, l, p, OutEffects.idle)
  else
    let trip := p.rdSnapshot
    let w := outputTo s.writeScript p.rdData
    let p1 : PBuf := { p with rdData := w.2.1 }
    match w.1 with
    | Except.error k =>
      if k = ErrorKind.wouldBlock then
        (Except.ok (PBuf.rdTripped trip p1), l, p1, ⟨none, w.2.2, none, false⟩)
      else
        (Except.error k, l, p1, ⟨none, w.2.2, none, false⟩)
    | Except.ok _ =>
      if p1.rdData.isEmpty && p1.hasPendingEof then
        let sdp : Shutdown × PBuf :=
          if p1.isAborted then
            (Shutdown.both, if !p1.wrIsEof then p1.wrAbort else p1)
          else (Shutdown.write, p1)
        match retryResult s.shutdownScript with
        | Except.error k =>
          if k = ErrorKind.wouldBlock then
            (Except.ok (PBuf.rdTripped trip sdp.2), l, sdp.2, ⟨none, w.2.2, some sdp.1, false⟩)
          else
            (Except.error k, l, sdp.2, ⟨none, w.2.2, some sdp.1, false⟩)
        | Except.ok _ =>
          let p3 := sdp.2.consumeEof
          (Except.ok (PBuf.rdTripped trip p3), l, p3, ⟨none, w.2.2, some sdp.1, true⟩)
      else
        (Except.ok (PBuf.rdTripped trip p1), l, p1, ⟨none, w.2.2, none, false⟩)

/-- `UnixStreamLink::process_in` (src/unixstream.rs lines 135-150). -/
def process_in (l : UnixStreamLink) (r : IOResult (List Nat)) (p : PBuf) :
    IOResult Bool × PBuf × InEffects :=
  if l.pause_reads || p.wrIsEof then (Except.ok false, p, ⟨false⟩)
  else
    let trip := p.wrSnapshot
    let res := inputFrom r l.max_read_unit p
    match res.1 with
    | Except.ok _ => (Except.ok (PBuf.wrTripped trip res.2), res.2, ⟨true⟩)
    | Except.error k =>
      match k with
      | ErrorKind.connectionReset =>
        (Except.ok (PBuf.wrTripped trip res.2.wrAbort), res.2.wrAbort, ⟨true⟩)
      | ErrorKind.connectionAborted =>
        (Except.ok (PBuf.wrTripped trip res.2.wrAbort), res.2.wrAbort, ⟨true⟩)
      | ErrorKind.wouldBlock => (Except.ok (PBuf.wrTripped trip res.2), res.2, ⟨true⟩)
      | _ => (Except.error k, res.2, ⟨true⟩)

/-- `UnixStreamLink::process` (src/unixstream.rs lines 81-85). -/
def process (l : UnixStreamLink) (s : OutScript) (r : IOResult (List Nat)) (p : PBuf) :
    IOResult Bool × UnixStreamLink × PBuf × OutEffects × InEffects :=
  match l.process_out s p with
  | (Except.error e, l1, p1, oe) => (Except.error e, l1, p1, oe, ⟨false⟩)
  | (Except.ok a, l1, p1, oe) =>
    match l1.process_in r p1 with
    | (Except.error e, p2, ie) => (Except.error e, l1, p2, oe, ie)
    | (Except.ok b, p2, ie) => (Except.ok (a || b), l1, p2, oe, ie)

end UnixStreamLink

/-- A sequence of `TcpLink::process_out` invocations, one per script,
threading the connector and buffer state and counting how many of the
invocations completed a successful `shutdown` syscall. -/
def runOutSeqTcp (l : TcpLink) (p : PBuf) : List OutScript → TcpLink × PBuf × Nat
  | [] => (l, p, 0)
  | s :: rest =>
    let r := l.process_out s p
    let t := runOutSeqTcp r.2.1 r.2.2.1 rest
    (t.1, t.2.1, (if r.2.2.2.shutdownOk then 1 else 0) + t.2.2)

/-- A sequence of `UnixStreamLink::process_out` invocations, as in
`runOutSeqTcp`. -/
def runOutSeqUnix (l : UnixStreamLink) (p : PBuf) :
    List OutScript → UnixStreamLink × PBuf × Nat
  | [] => (l, p, 0)
  | s :: rest =>
    let r := l.process_out s p
    let t := runOutSeqUnix r.2.1 r.2.2.1 rest
    (t.1, t.2.1, (if r.2.2.2.shutdownOk then 1 else 0) + t.2.2)

/-! ## Helper lemmas -/

/-- A paused outbound transfer is the identity (TCP). -/
theorem tcp_out_paused (l : TcpLink) (s : OutScript) (p : PBuf)
    (h : l.pause_writes = true) :
    l.process_out s p = (Except.ok false, l, p, OutEffects.idle) := by
  unfold TcpLink.process_out
  simp [h]

/-- A paused outbound transfer is the identity (Unix). -/
theorem unix_out_paused (l : UnixStreamLink) (s : OutScript) (p : PBuf)
    (h : l.pause_writes = true) :
    l.process_out s p = (Except.ok false, l, p, OutEffects.idle) := by
  unfold UnixStreamLink.process_out
  simp [h]

/-- The `set_nodelay` syscall is attempted exactly when writes are
unpaused and a change is pending, and then with the stored value. -/
theorem tcp_out_nodelayApplied (l : TcpLink) (s : OutScript) (p : PBuf) :
    ((l.process_out s p).2.2.2).nodelayApplied =
      if l.pause_writes then none
      else if l.pending_set_nodelay then some l.nodelay else none := by
  unfold TcpLink.process_out
  by_cases hp : l.pause_writes
  · simp [hp, OutEffects.idle]
  · by_cases hn : l.pending_set_nodelay <;>
      simp only [hp, hn, Bool.false_eq_true, if_false, if_true, reduceIte] <;>
      repeat first
      | rfl
      | (split <;> try rfl)

/-- One `TcpLink::process_out` call either leaves the pending
end-of-data flag alone with no successful shutdown, or consumes a set
flag in the call whose shutdown syscall succeeded. -/
theorem tcp_out_pending_step (l : TcpLink) (s : OutScript) (p : PBuf) :
    ((l.process_out s p).2.2.1.rdPendingEof = p.rdPendingEof ∧
      (l.process_out s p).2.2.2.shutdownOk = false) ∨
    (p.rdPendingEof = true ∧ (l.process_out s p).2.2.1.rdPendingEof = false ∧
      (l.process_out s p).2.2.2.shutdownOk = true ∧
      retryResult s.shutdownScript = Except.ok ()) := by
  unfold TcpLink.process_out
  by_cases hp : l.pause_writes
  · exact Or.inl (by simp [hp, OutEffects.idle])
  · by_cases hn : l.pending_set_nodelay <;>
      simp only [hp, hn, Bool.false_eq_true, if_false, if_true, reduceIte] <;>
      repeat' split
    all_goals first
      | exact Or.inl ⟨rfl, rfl⟩
      | (refine Or.inr ?_
         simp_all [PBuf.hasPendingEof, PBuf.consumeEof, PBuf.wrAbort])

/-- One `UnixStreamLink::process_out` call either leaves the pending
end-of-data flag alone with no successful shutdown, or consumes a set
flag in the call whose shutdown syscall succeeded. -/
theorem unix_out_pending_step (l : UnixStreamLink) (s : OutScript) (p : PBuf) :
    ((l.process_out s p).2.2.1.rdPendingEof = p.rdPendingEof ∧
      (l.process_out s p).2.2.2.shutdownOk = false) ∨
    (p.rdPendingEof = true ∧ (l.process_out s p).2.2.1.rdPendingEof = false ∧
      (l.process_out s p).2.2.2.shutdownOk = true ∧
      retryResult s.shutdownScript = Except.ok ()) := by
  unfold UnixStreamLink.process_out
  by_cases hp : l.pause_writes
  · exact Or.inl (by simp [hp, OutEffects.idle])
  · simp only [hp, Bool.false_eq_true, if_false, reduceIte]
    repeat' split
    all_goals first
      | exact Or.inl ⟨rfl, rfl⟩
      | (refine Or.inr ?_
         simp_all [PBuf.hasPendingEof, PBuf.consumeEof, PBuf.wrAbort])

/-- Once the pending end-of-data flag is clear, no sequence of
`TcpLink::process_out` calls sets it again. -/
theorem runOutSeqTcp_pending_mono (l : TcpLink) (p : PBuf) (ss : List OutScript)
    (h : p.rdPendingEof = false) :
    (runOutSeqTcp l p ss).2.1.rdPendingEof = false := by
  induction ss generalizing l p with
  | nil => simpa [runOutSeqTcp] using h
  | cons s rest ih =>
    simp only [runOutSeqTcp]
    rcases tcp_out_pending_step l s p with ⟨h1, _⟩ | ⟨h1, _, _, _⟩
    · exact ih _ _ (h1.trans h)
    · rw [h] at h1; cases h1

/-- Once the pending end-of-data flag is clear, no sequence of
`UnixStreamLink::process_out` calls sets it again. -/
theorem runOutSeqUnix_pending_mono (l : UnixStreamLink) (p : PBuf)
    (ss : List OutScript) (h : p.rdPendingEof = false) :
    (runOutSeqUnix l p ss).2.1.rdPendingEof = false := by
  induction ss generalizing l p with
  | nil => simpa [runOutSeqUnix] using h
  | cons s rest ih =>
    simp only [runOutSeqUnix]
    rcases unix_out_pending_step l s p with ⟨h1, _⟩ | ⟨h1, _, _, _⟩
    · exact ih _ _ (h1.trans h)
    · rw [h] at h1; cases h1

/-- The number of successful shutdown syscalls across a sequence of
`TcpLink::process_out` calls is `1` exactly when the pending
end-of-data flag was initially set and is consumed by the sequence,
and `0` otherwise. -/
theorem runOutSeqTcp_count (l : TcpLink) (p : PBuf) (ss : List OutScript) :
    (runOutSeqTcp l p ss).2.2 =
      if p.rdPendingEof && !(runOutSeqTcp l p ss).2.1.rdPendingEof then 1
      else 0 := by
  induction ss generalizing l p with
  | nil => simp [runOutSeqTcp]
  | cons s rest ih =>
    simp only [runOutSeqTcp]
    rcases tcp_out_pending_step l s p with ⟨h1, h2⟩ | ⟨h1, h2, h3, _⟩
    · rw [h2, ih, h1]
      simp
    · rw [h3, ih, h2, h1]
      simp [runOutSeqTcp_pending_mono _ _ _ h2]

/-- The number of successful shutdown syscalls across a sequence of
`UnixStreamLink::process_out` calls, as in `runOutSeqTcp_count`. -/
theorem runOutSeqUnix_count (l : UnixStreamLink) (p : PBuf)
    (ss : List OutScript) :
    (runOutSeqUnix l p ss).2.2 =
      if p.rdPendingEof && !(runOutSeqUnix l p ss).2.1.rdPendingEof then 1
      else 0 := by
  induction ss generalizing l p with
  | nil => simp [runOutSeqUnix]
  | cons s rest ih =>
    simp only [runOutSeqUnix]
    rcases unix_out_pending_step l s p with ⟨h1, h2⟩ | ⟨h1, h2, h3, _⟩
    · rw [h2, ih, h1]
      simp
    · rw [h3, ih, h2, h1]
      simp [runOutSeqUnix_pending_mono _ _ _ h2]

/-- One read syscall grows the incoming side by at most `max` bytes. -/
theorem inputFrom_wrData_len (r : IOResult (List Nat)) (max : Nat) (p : PBuf) :
    (inputFrom r max p).2.wrData.length ≤ p.wrData.length + max := by
  unfold inputFrom
  cases r with
  | error k => simp
  | ok avail =>
    by_cases hc : (List.take max avail).isEmpty <;>
      simp [hc, List.length_take]

/-- The buffer returned by `TcpLink::process_in` is the input buffer,
the read result, or the read result with the abort flag raised. -/
theorem tcp_in_pbuf_cases (l : TcpLink) (r : IOResult (List Nat)) (p : PBuf) :
    (l.process_in r p).2.1 = p ∨
    (l.process_in r p).2.1 = (inputFrom r l.max_read_unit p).2 ∨
    (l.process_in r p).2.1 = (inputFrom r l.max_read_unit p).2.wrAbort := by
  simp only [TcpLink.process_in]
  repeat' split
  all_goals first
    | exact Or.inl rfl
    | exact Or.inr (Or.inl rfl)
    | exact Or.inr (Or.inr rfl)

/-- The buffer returned by `UnixStreamLink::process_in` is the input
buffer, the read result, or the read result with the abort flag
raised. -/
theorem unix_in_pbuf_cases (l : UnixStreamLink) (r : IOResult (List Nat))
    (p : PBuf) :
    (l.process_in r p).2.1 = p ∨
    (l.process_in r p).2.1 = (inputFrom r l.max_read_unit p).2 ∨
    (l.process_in r p).2.1 = (inputFrom r l.max_read_unit p).2.wrAbort := by
  simp only [UnixStreamLink.process_in]
  repeat' split
  all_goals first
    | exact Or.inl rfl
    | exact Or.inr (Or.inl rfl)
    | exact Or.inr (Or.inr rfl)

/-! ## Claim theorems -/

/-- C2: with pending end-of-data set, across any sequence of
`process_out` invocations the transport shutdown succeeds at most
once — exactly once when the end-of-data condition ends up consumed —
and once the condition is consumed no later invocation re-triggers the
shutdown sequence; a would-block result from the shutdown call leaves
the end-of-data condition unconsumed so it is retried later.  Holds
for `TcpLink` and `UnixStreamLink` alike. -/
theorem C2_shutdown_exactly_once (tl : TcpLink) (ul : UnixStreamLink)
    (p q : PBuf) (ss ts : List OutScript) (s t : OutScript)
    (hp : p.rdPendingEof = true) (hq : q.rdPendingEof = true) :
    ((runOutSeqTcp tl p ss).2.2 ≤ 1 ∧
      ((runOutSeqTcp tl p ss).2.1.rdPendingEof = false →
        (runOutSeqTcp tl p ss).2.2 = 1) ∧
      (∀ l2 p2 ss2, (p2 : PBuf).rdPendingEof = false →
        (runOutSeqTcp l2 p2 ss2).2.2 = 0 ∧
          (runOutSeqTcp l2 p2 ss2).2.1.rdPendingEof = false) ∧
      (retryResult s.shutdownScript = Except.error ErrorKind.wouldBlock →
        (tl.process_out s p).2.2.1.rdPendingEof = true)) ∧
    ((runOutSeqUnix ul q ts).2.2 ≤ 1 ∧
      ((runOutSeqUnix ul q ts).2.1.rdPendingEof = false →
        (runOutSeqUnix ul q ts).2.2 = 1) ∧
      (∀ l2 p2 ts2, (p2 : PBuf).rdPendingEof = false →
        (runOutSeqUnix l2 p2 ts2).2.2 = 0 ∧
          (runOutSeqUnix l2 p2 ts2).2.1.rdPendingEof = false) ∧
      (retryResult t.shutdownScript = Except.error ErrorKind.wouldBlock →
        (ul.process_out t q).2.2.1.rdPendingEof = true)) := by
  constructor
  · refine ⟨?_, ?_, ?_, ?_⟩
    · rw [runOutSeqTcp_count]; split <;> omega
    · intro hf; rw [runOutSeqTcp_count, hp, hf]; simp
    · intro l2 p2 ss2 h0
      refine ⟨?_, runOutSeqTcp_pending_mono _ _ _ h0⟩
      rw [runOutSeqTcp_count, h0]; simp
    · intro hwb
      rcases tcp_out_pending_step tl s p with ⟨h1, _⟩ | ⟨_, _, _, h4⟩
      · rw [h1, hp]
      · rw [h4] at hwb; cases hwb
  · refine ⟨?_, ?_, ?_, ?_⟩
    · rw [runOutSeqUnix_count]; split <;> omega
    · intro hf; rw [runOutSeqUnix_count, hq, hf]; simp
    · intro l2 p2 ts2 h0
      refine ⟨?_, runOutSeqUnix_pending_mono _ _ _ h0⟩
      rw [runOutSeqUnix_count, h0]; simp
    · intro hwb
      rcases unix_out_pending_step ul t q with ⟨h1, _⟩ | ⟨_, _, _, h4⟩
      · rw [h1, hq]
      · rw [h4] at hwb; cases hwb

/-- Witness for C2 at a concrete connector, buffer and script. -/
theorem C2_shutdown_exactly_once_witness :
    (⟨[], true, false, [], false, false⟩ : PBuf).rdPendingEof = true ∧
    (runOutSeqTcp ⟨2048, false, false, false, false⟩
      ⟨[], true, false, [], false, false⟩
      [⟨([], Except.ok ()), [], ([], Except.ok ())⟩]).2.2 ≤ 1 :=
  ⟨rfl,
    (C2_shutdown_exactly_once ⟨2048, false, false, false, false⟩
      ⟨2048, false, false⟩ ⟨[], true, false, [], false, false⟩
      ⟨[], true, false, [], false, false⟩
      [⟨([], Except.ok ()), [], ([], Except.ok ())⟩] []
      ⟨([], Except.ok ()), [], ([], Except.ok ())⟩
      ⟨([], Except.ok ()), [], ([], Except.ok ())⟩ rfl rfl).1.1⟩

/-- C6: with writes paused, `process_out` is a pure no-op (`Ok(false)`,
no syscalls, no state change); with reads paused or the incoming side
already at end-of-data, `process_in` is likewise a pure no-op.  Holds
for `TcpLink` and `UnixStreamLink` alike. -/
theorem C6_paused_noop (tl : TcpLink) (ul : UnixStreamLink) (s : OutScript)
    (r : IOResult (List Nat)) (p : PBuf) :
    (tl.pause_writes = true →
      tl.process_out s p = (Except.ok false, tl, p, OutEffects.idle)) ∧
    (tl.pause_reads = true ∨ p.wrIsEof = true →
      tl.process_in r p = (Except.ok false, p, ⟨false⟩)) ∧
    (ul.pause_writes = true →
      ul.process_out s p = (Except.ok false, ul, p, OutEffects.idle)) ∧
    (ul.pause_reads = true ∨ p.wrIsEof = true →
      ul.process_in r p = (Except.ok false, p, ⟨false⟩)) := by
  refine ⟨fun h => tcp_out_paused tl s p h, fun h => ?_,
    fun h => unix_out_paused ul s p h, fun h => ?_⟩
  · unfold TcpLink.process_in
    rcases h with h | h <;> simp [h]
  · unfold UnixStreamLink.process_in
    rcases h with h | h <;> simp [h]

/-- Witness for C6 at a concrete connector and buffer. -/
theorem C6_paused_noop_witness :
    (⟨2048, false, true, true, false⟩ : TcpLink).pause_writes = true ∧
    TcpLink.process_out ⟨2048, false, true, true, false⟩
      ⟨([], Except.ok ()), [], ([], Except.ok ())⟩
      ⟨[1], true, false, [], false, false⟩ =
      (Except.ok false, ⟨2048, false, true, true, false⟩,
        ⟨[1], true, false, [], false, false⟩, OutEffects.idle) :=
  ⟨rfl,
    (C6_paused_noop ⟨2048, false, true, true, false⟩ ⟨2048, true, true⟩
      ⟨([], Except.ok ()), [], ([], Except.ok ())⟩ (Except.ok [])
      ⟨[1], true, false, [], false, false⟩).1 rfl⟩

/-- C7: for any configured chunk size of at least one byte, a single
`process_in` invocation appends at most that many bytes to the
incoming side, whatever the transport offers.  Holds for `TcpLink` and
`UnixStreamLink` alike. -/
theorem C7_read_chunk_bound (tl : TcpLink) (ul : UnixStreamLink)
    (r : IOResult (List Nat)) (p : PBuf)
    (h1 : 1 ≤ tl.max_read_unit) (h2 : 1 ≤ ul.max_read_unit) :
    (tl.process_in r p).2.1.wrData.length ≤
      p.wrData.length + tl.max_read_unit ∧
    (ul.process_in r p).2.1.wrData.length ≤
      p.wrData.length + ul.max_read_unit := by
  constructor
  · rcases tcp_in_pbuf_cases tl r p with h | h | h <;> rw [h] <;>
      first
      | exact Nat.le_add_right _ _
      | exact inputFrom_wrData_len r tl.max_read_unit p
  · rcases unix_in_pbuf_cases ul r p with h | h | h <;> rw [h] <;>
      first
      | exact Nat.le_add_right _ _
      | exact inputFrom_wrData_len r ul.max_read_unit p

/-- Witness for C7 at a concrete connector, buffer and transport
data. -/
theorem C7_read_chunk_bound_witness :
    1 ≤ (⟨2, false, false, false, false⟩ : TcpLink).max_read_unit ∧
    (TcpLink.process_in ⟨2, false, false, false, false⟩
        (Except.ok [9, 9, 9, 9, 9])
        ⟨[], false, false, [7], false, false⟩).2.1.wrData.length ≤
      (⟨[], false, false, [7], false, false⟩ : PBuf).wrData.length + 2 :=
  ⟨by decide,
    (C7_read_chunk_bound ⟨2, false, false, false, false⟩ ⟨2, false, false⟩
      (Except.ok [9, 9, 9, 9, 9]) ⟨[], false, false, [7], false, false⟩
      (by decide) (by decide)).1⟩

/-- C10: requesting the currently-stored no-delay value mutates
nothing (in particular the pending-change latch stays as it is, so no
option syscall happens on the next `process_out`); the latch is set
exactly when the requested value differs. -/
theorem C10_set_nodelay_latch (l : TcpLink) (nd : Bool) (s : OutScript)
    (p : PBuf) :
    (nd = l.nodelay → l.set_nodelay nd = l) ∧
    (nd ≠ l.nodelay →
      l.set_nodelay nd =
        { l with nodelay := nd, pending_set_nodelay := true }) ∧
    (l.pending_set_nodelay = false →
      ((l.set_nodelay l.nodelay).process_out s p).2.2.2.nodelayApplied =
        none) := by
  refine ⟨fun h => ?_, fun h => ?_, fun h => ?_⟩
  · unfold TcpLink.set_nodelay
    simp [h]
  · unfold TcpLink.set_nodelay
    simp [Ne.symm h]
  · have e : l.set_nodelay l.nodelay = l := by
      unfold TcpLink.set_nodelay; simp
    rw [e, tcp_out_nodelayApplied, h]
    split <;> simp

/-- Witness for C10 at a concrete connector. -/
theorem C10_set_nodelay_latch_witness :
    false = (⟨2048, false, false, false, false⟩ : TcpLink).nodelay ∧
    TcpLink.set_nodelay ⟨2048, false, false, false, false⟩ false =
      ⟨2048, false, false, false, false⟩ :=
  ⟨rfl,
    (C10_set_nodelay_latch ⟨2048, false, false, false, false⟩ false
      ⟨([], Except.ok ()), [], ([], Except.ok ())⟩
      ⟨[], false, false, [], false, false⟩).1 rfl⟩

/-- C3: a read failure of kind connection-reset or connection-aborted
is absorbed: the incoming side's abort flag is raised, no error
reaches the caller, and the call returns `Ok(true)` because raising
the flag trips the progress marker.  Holds for `TcpLink` and
`UnixStreamLink` alike. -/
theorem C3_reset_recorded_as_abort (tl : TcpLink) (ul : UnixStreamLink)
    (r : IOResult (List Nat)) (p : PBuf)
    (hk : r = Except.error ErrorKind.connectionReset ∨
      r = Except.error ErrorKind.connectionAborted)
    (ht : tl.pause_reads = false) (hu : ul.pause_reads = false)
    (he : p.wrIsEof = false) :
    tl.process_in r p = (Except.ok true, p.wrAbort, ⟨true⟩) ∧
    ul.process_in r p = (Except.ok true, p.wrAbort, ⟨true⟩) := by
  have hab : p.wrAborted = false := by
    revert he; unfold PBuf.wrIsEof; cases p.wrAborted <;> simp
  constructor
  · unfold TcpLink.process_in
    rcases hk with hk | hk <;>
      simp [ht, he, hk, inputFrom, PBuf.wrTripped, PBuf.wrSnapshot,
        PBuf.wrAbort, hab]
  · unfold UnixStreamLink.process_in
    rcases hk with hk | hk <;>
      simp [hu, he, hk, inputFrom, PBuf.wrTripped, PBuf.wrSnapshot,
        PBuf.wrAbort, hab]

/-- Witness for C3 at a concrete connector and buffer. -/
theorem C3_reset_recorded_as_abort_witness :
    TcpLink.process_in ⟨2048, false, false, false, false⟩
      (Except.error ErrorKind.connectionReset)
      ⟨[], false, false, [], false, false⟩ =
      (Except.ok true,
        (⟨[], false, false, [], false, false⟩ : PBuf).wrAbort, ⟨true⟩) :=
  (C3_reset_recorded_as_abort ⟨2048, false, false, false, false⟩
    ⟨2048, false, false⟩ (Except.error ErrorKind.connectionReset)
    ⟨[], false, false, [], false, false⟩ (Or.inl rfl) rfl rfl rfl).1

/-- C4: the combined drive runs the outbound transfer first and the
inbound transfer second, returns the logical OR of the two progress
flags when both succeed, and returns the outbound error without
running the inbound transfer when the outbound transfer fails.  Holds
for `TcpLink` and `UnixStreamLink` alike. -/
theorem C4_process_order_and_error (tl : TcpLink) (ul : UnixStreamLink)
    (s : OutScript) (r : IOResult (List Nat)) (p : PBuf) :
    (∀ a l1 p1 oe b p2 ie,
      tl.process_out s p = (Except.ok a, l1, p1, oe) →
      l1.process_in r p1 = (Except.ok b, p2, ie) →
      tl.process s r p = (Except.ok (a || b), l1, p2, oe, ie)) ∧
    (∀ e l1 p1 oe,
      tl.process_out s p = (Except.error e, l1, p1, oe) →
      tl.process s r p = (Except.error e, l1, p1, oe, ⟨false⟩)) ∧
    (∀ a l1 p1 oe b p2 ie,
      ul.process_out s p = (Except.ok a, l1, p1, oe) →
      l1.process_in r p1 = (Except.ok b, p2, ie) →
      ul.process s r p = (Except.ok (a || b), l1, p2, oe, ie)) ∧
    (∀ e l1 p1 oe,
      ul.process_out s p = (Except.error e, l1, p1, oe) →
      ul.process s r p = (Except.error e, l1, p1, oe, ⟨false⟩)) := by
  refine ⟨?_, ?_, ?_, ?_⟩
  · intro a l1 p1 oe b p2 ie h1 h2
    simp [TcpLink.process, h1, h2]
  · intro e l1 p1 oe h1
    simp [TcpLink.process, h1]
  · intro a l1 p1 oe b p2 ie h1 h2
    simp [UnixStreamLink.process, h1, h2]
  · intro e l1 p1 oe h1
    simp [UnixStreamLink.process, h1]

/-- Witness for C4 at a concrete connector, script and buffer. -/
theorem C4_process_order_and_error_witness :
    TcpLink.process ⟨2048, false, false, false, false⟩
      ⟨([], Except.ok ()), [Except.ok 1], ([], Except.ok ())⟩
      (Except.error ErrorKind.wouldBlock)
      ⟨[5], false, false, [], false, false⟩ =
      (Except.ok (true || false), ⟨2048, false, false, false, false⟩,
        ⟨[], false, false, [], false, false⟩,
        ⟨none, 1, none, false⟩, ⟨true⟩) :=
  (C4_process_order_and_error ⟨2048, false, false, false, false⟩
    ⟨2048, false, false⟩
    ⟨([], Except.ok ()), [Except.ok 1], ([], Except.ok ())⟩
    (Except.error ErrorKind.wouldBlock)
    ⟨[5], false, false, [], false, false⟩).1 true
    ⟨2048, false, false, false, false⟩ ⟨[], false, false, [], false, false⟩
    ⟨none, 1, none, false⟩ false ⟨[], false, false, [], false, false⟩
    ⟨true⟩ rfl rfl

/-- C5: an Interrupted failure of the option-change or shutdown
syscalls is retried inside the call and never surfaces, and a
would-block result from read, write or shutdown is never returned as
an error — the call returns `Ok` with the progress-marker result. -/
theorem C5_interrupted_and_wouldblock (junk : List (IOResult Unit))
    (fin : IOResult Unit) (tl : TcpLink) (ul : UnixStreamLink)
    (s : OutScript) (r : IOResult (List Nat)) (p : PBuf) :
    (retryResult (Except.error ErrorKind.interrupted :: junk, fin) =
      retryResult (junk, fin)) ∧
    (isInterrupted fin = false →
      isInterrupted (retryResult (junk, fin)) = false) ∧
    (((outputTo s.writeScript p.rdData).1 = Except.ok () ∨
        (outputTo s.writeScript p.rdData).1 =
          Except.error ErrorKind.wouldBlock) →
      (retryResult s.shutdownScript = Except.ok () ∨
        retryResult s.shutdownScript = Except.error ErrorKind.wouldBlock) →
      (tl.pending_set_nodelay = false ∨
        retryResult s.nodelayScript = Except.ok ()) →
      ∃ b, (tl.process_out s p).1 = Except.ok b) ∧
    (((outputTo s.writeScript p.rdData).1 = Except.ok () ∨
        (outputTo s.writeScript p.rdData).1 =
          Except.error ErrorKind.wouldBlock) →
      (retryResult s.shutdownScript = Except.ok () ∨
        retryResult s.shutdownScript = Except.error ErrorKind.wouldBlock) →
      ∃ b, (ul.process_out s p).1 = Except.ok b) ∧
    (r = Except.error ErrorKind.wouldBlock →
      (∃ b, (tl.process_in r p).1 = Except.ok b) ∧
      (∃ b, (ul.process_in r p).1 = Except.ok b)) := by
  refine ⟨?_, ?_, ?_, ?_, ?_⟩
  · simp [retryResult, isInterrupted]
  · intro hf
    unfold retryResult
    cases hfind : junk.find? (fun x => !(isInterrupted x)) with
    | none => simpa using hf
    | some x => simpa using List.find?_some hfind
  · intro hw hsd hnd
    cases hres : (tl.process_out s p).1 with
    | ok b => exact ⟨b, rfl⟩
    | error e =>
      exfalso
      have hnd2 : (if tl.pending_set_nodelay then retryResult s.nodelayScript
          else Except.ok ()) = Except.ok () := by
        rcases hnd with h | h
        · simp [h]
        · by_cases hb : tl.pending_set_nodelay <;> simp [hb, h]
      unfold TcpLink.process_out at hres
      by_cases hp : tl.pause_writes
      · simp [hp] at hres
      · simp only [hp, Bool.false_eq_true, if_false, reduceIte, hnd2] at hres
        repeat' split at hres
        all_goals simp_all
  · intro hw hsd
    cases hres : (ul.process_out s p).1 with
    | ok b => exact ⟨b, rfl⟩
    | error e =>
      exfalso
      unfold UnixStreamLink.process_out at hres
      by_cases hp : ul.pause_writes
      · simp [hp] at hres
      · simp only [hp, Bool.false_eq_true, if_false, reduceIte] at hres
        repeat' split at hres
        all_goals simp_all
  · intro hr
    constructor
    · unfold TcpLink.process_in
      by_cases hg : (tl.pause_reads || p.wrIsEof) = true
      · exact ⟨false, by simp [hg]⟩
      · exact ⟨false, by simp [hg, hr, inputFrom, PBuf.wrTripped]⟩
    · unfold UnixStreamLink.process_in
      by_cases hg : (ul.pause_reads || p.wrIsEof) = true
      · exact ⟨false, by simp [hg]⟩
      · exact ⟨false, by simp [hg, hr, inputFrom, PBuf.wrTripped]⟩

/-- Witness for C5 at a concrete connector with a pending no-delay
change whose syscall succeeds and whose write attempt hits
would-block: the call still returns `Ok`. -/
theorem C5_interrupted_and_wouldblock_witness :
    (outputTo [Except.error ErrorKind.wouldBlock] [1]).1 =
      Except.error ErrorKind.wouldBlock ∧
    retryResult ([], Except.ok ()) = Except.ok () ∧
    (⟨2048, true, false, false, true⟩ : TcpLink).pending_set_nodelay =
      true ∧
    ∃ b, (TcpLink.process_out ⟨2048, true, false, false, true⟩
        ⟨([], Except.ok ()), [Except.error ErrorKind.wouldBlock],
          ([], Except.ok ())⟩
        ⟨[1], true, false, [], false, false⟩).1 = Except.ok b :=
  ⟨rfl, rfl, rfl,
    (C5_interrupted_and_wouldblock [Except.error ErrorKind.interrupted]
      (Except.ok ()) ⟨2048, true, false, false, true⟩
      ⟨2048, false, false⟩
      ⟨([], Except.ok ()), [Except.error ErrorKind.wouldBlock],
        ([], Except.ok ())⟩
      (Except.error ErrorKind.wouldBlock)
      ⟨[1], true, false, [], false, false⟩).2.2.1
      (Or.inr rfl) (Or.inl rfl) (Or.inr rfl)⟩

/-- C9: the pending no-delay latch is cleared before the syscall is
attempted, so when the syscall fails fatally the error is returned
with the latch already clear and no later `process_out` re-attempts
the option change. -/
theorem C9_nodelay_change_lost_on_error (l : TcpLink) (s s2 : OutScript)
    (p p2 : PBuf) (e : ErrorKind)
    (hpw : l.pause_writes = false) (hpend : l.pending_set_nodelay = true)
    (hnd : retryResult s.nodelayScript = Except.error e) :
    l.process_out s p =
      (Except.error e, { l with pending_set_nodelay := false }, p,
        { OutEffects.idle with nodelayApplied := some l.nodelay }) ∧
    (({ l with pending_set_nodelay := false } : TcpLink).process_out s2
        p2).2.2.2.nodelayApplied = none := by
  constructor
  · unfold TcpLink.process_out
    simp [hpw, hpend, hnd, OutEffects.idle]
  · rw [tcp_out_nodelayApplied]
    split <;> simp

/-- Witness for C9 at a concrete connector and script. -/
theorem C9_nodelay_change_lost_on_error_witness :
    (⟨2048, true, false, false, true⟩ : TcpLink).pending_set_nodelay =
      true ∧
    TcpLink.process_out ⟨2048, true, false, false, true⟩
      ⟨([], Except.error (ErrorKind.other 5)), [], ([], Except.ok ())⟩
      ⟨[], false, false, [], false, false⟩ =
      (Except.error (ErrorKind.other 5), ⟨2048, true, false, false, false⟩,
        ⟨[], false, false, [], false, false⟩,
        ⟨some true, 0, none, false⟩) :=
  ⟨rfl,
    (C9_nodelay_change_lost_on_error ⟨2048, true, false, false, true⟩
      ⟨([], Except.error (ErrorKind.other 5)), [], ([], Except.ok ())⟩
      ⟨([], Except.ok ()), [], ([], Except.ok ())⟩
      ⟨[], false, false, [], false, false⟩
      ⟨[], false, false, [], false, false⟩ (ErrorKind.other 5) rfl rfl
      rfl).1⟩

/-- C1: when the write attempt succeeds leaving the outgoing side
empty with pending end-of-data and the aborted flag set, the connector
requests a bidirectional (`Both`) shutdown, and if the incoming side
has not already recorded end-of-data its abort flag becomes set.
Holds for `TcpLink::process_out` and `UnixStreamLink::process_out`. -/
theorem C1_abort_propagates_both_shutdown (tl : TcpLink)
    (ul : UnixStreamLink) (s : OutScript) (p : PBuf) (w : Nat)
    (hnd : tl.pending_set_nodelay = false ∨
      retryResult s.nodelayScript = Except.ok ())
    (hpt : tl.pause_writes = false) (hpu : ul.pause_writes = false)
    (hw : outputTo s.writeScript p.rdData = (Except.ok (), [], w))
    (heof : p.rdPendingEof = true) (hab : p.rdAborted = true) :
    ((tl.process_out s p).2.2.2.shutdownAttempt = some Shutdown.both ∧
      (p.wrIsEof = false → (tl.process_out s p).2.2.1.wrAborted = true)) ∧
    ((ul.process_out s p).2.2.2.shutdownAttempt = some Shutdown.both ∧
      (p.wrIsEof = false → (ul.process_out s p).2.2.1.wrAborted = true)) := by
  have hnd2 : (if tl.pending_set_nodelay then retryResult s.nodelayScript
      else Except.ok ()) = Except.ok () := by
    rcases hnd with h | h
    · simp [h]
    · by_cases hb : tl.pending_set_nodelay <;> simp [hb, h]
  constructor
  · unfold TcpLink.process_out
    simp only [hpt, Bool.false_eq_true, if_false, reduceIte, hnd2, hw,
      PBuf.hasPendingEof, PBuf.isAborted, heof, hab, List.isEmpty_nil,
      Bool.and_self, if_true]
    repeat' split
    all_goals exact ⟨rfl, fun _ => rfl⟩
  · unfold UnixStreamLink.process_out
    simp only [hpu, Bool.false_eq_true, if_false, reduceIte, hw,
      PBuf.hasPendingEof, PBuf.isAborted, heof, hab, List.isEmpty_nil,
      Bool.and_self, if_true]
    repeat' split
    all_goals
      refine ⟨rfl, fun hwe => ?_⟩
      simp_all [PBuf.wrIsEof, PBuf.wrAbort, PBuf.consumeEof]

/-- Witness for C1 at a concrete connector, script and buffer. -/
theorem C1_abort_propagates_both_shutdown_witness :
    outputTo [] ([] : List Nat) = (Except.ok (), [], 0) ∧
    ((TcpLink.process_out ⟨2048, false, false, false, false⟩
        ⟨([], Except.ok ()), [], ([], Except.ok ())⟩
        ⟨[], true, true, [], false, false⟩).2.2.2.shutdownAttempt =
      some Shutdown.both ∧
      ((⟨[], true, true, [], false, false⟩ : PBuf).wrIsEof = false →
        (TcpLink.process_out ⟨2048, false, false, false, false⟩
          ⟨([], Except.ok ()), [], ([], Except.ok ())⟩
          ⟨[], true, true, [], false, false⟩).2.2.1.wrAborted = true)) :=
  ⟨rfl,
    (C1_abort_propagates_both_shutdown ⟨2048, false, false, false, false⟩
      ⟨2048, false, false⟩ ⟨([], Except.ok ()), [], ([], Except.ok ())⟩
      ⟨[], true, true, [], false, false⟩ 0 (Or.inl rfl) rfl rfl rfl rfl
      rfl).1⟩

/-- `UnixStreamLink::process_out` never changes the connector state. -/
theorem unix_out_link (l : UnixStreamLink) (s : OutScript) (p : PBuf) :
    (l.process_out s p).2.1 = l := by
  simp only [UnixStreamLink.process_out]
  repeat' split
  all_goals rfl

/-- With no no-delay change pending, `TcpLink::process_out` never
changes the connector state. -/
theorem tcp_out_link (l : TcpLink) (s : OutScript) (p : PBuf)
    (hnd : l.pending_set_nodelay = false) :
    (l.process_out s p).2.1 = l := by
  obtain ⟨m, nd, pw, pr, pn⟩ := l
  simp only at hnd
  subst hnd
  simp only [TcpLink.process_out]
  repeat' split
  all_goals rfl

/-- With no no-delay change pending and a state in which the incoming
side is still open or the outgoing side is not aborted, the Unix
outbound transfer returns exactly what the TCP one does (up to the
untouched connector value). -/
theorem tcp_unix_out_agree (tl : TcpLink) (ul : UnixStreamLink)
    (s : OutScript) (p : PBuf)
    (hw : ul.pause_writes = tl.pause_writes)
    (hnd : tl.pending_set_nodelay = false)
    (hguard : p.wrIsEof = false ∨ p.rdAborted = false) :
    ul.process_out s p =
      ((tl.process_out s p).1, ul, (tl.process_out s p).2.2) := by
  unfold TcpLink.process_out UnixStreamLink.process_out
  by_cases hp : tl.pause_writes
  · simp [hp, hw]
  · have hg2 : (!(({ p with
        rdData := (outputTo s.writeScript p.rdData).2.1 } : PBuf).wrIsEof)) =
          true ∨ p.rdAborted = false := by
      rcases hguard with h | h
      · left
        simp_all [PBuf.wrIsEof]
      · exact Or.inr h
    simp only [hp, hw, hnd, Bool.false_eq_true, if_false, reduceIte]
    rcases hg2 with hg2 | hg2 <;>
      simp only [hg2, PBuf.isAborted, if_true, reduceIte] <;>
      repeat' split
    all_goals simp_all [PBuf.isAborted]

/-- The two inbound transfers are the same function of the shared
configuration fields. -/
theorem tcp_unix_in_agree (tl : TcpLink) (ul : UnixStreamLink)
    (r : IOResult (List Nat)) (p : PBuf)
    (hm : ul.max_read_unit = tl.max_read_unit)
    (hr : ul.pause_reads = tl.pause_reads) :
    ul.process_in r p = tl.process_in r p := by
  unfold TcpLink.process_in UnixStreamLink.process_in
  rw [hm, hr]

/-- C8 counterexample: with identical configuration, no pending
no-delay change, the same transport script and the same buffer, the
two connectors can produce different buffer effects — `TcpLink` sets
the incoming side's abort flag even though the incoming side has
already recorded end-of-data, `UnixStreamLink` does not.  So the
no-delay toggle is not the only behavioural difference. -/
theorem C8_not_identical_counterexample :
    (⟨2048, false, false, false, false⟩ : TcpLink).pending_set_nodelay =
      false ∧
    (TcpLink.process_out ⟨2048, false, false, false, false⟩
        ⟨([], Except.ok ()), [], ([], Except.ok ())⟩
        ⟨[], true, true, [], true, false⟩).2.2.1 ≠
      (UnixStreamLink.process_out ⟨2048, false, false⟩
        ⟨([], Except.ok ()), [], ([], Except.ok ())⟩
        ⟨[], true, true, [], true, false⟩).2.2.1 := by
  constructor
  · rfl
  · decide

/-- C8 (amended): the drive operations of `TcpLink` and
`UnixStreamLink` agree in result, buffer effect and transport effect,
except for the TCP-specific no-delay toggle and the abort-propagation
guard (on the aborted-close path `UnixStreamLink` checks that the
incoming side has not recorded end-of-data, `TcpLink` does not): with
no no-delay change pending and the incoming side still open or the
outgoing side not aborted, the behaviours coincide exactly and
neither connector state changes. -/
theorem C8_amended_equivalence (tl : TcpLink) (ul : UnixStreamLink)
    (s : OutScript) (r : IOResult (List Nat)) (p : PBuf)
    (hm : ul.max_read_unit = tl.max_read_unit)
    (hw : ul.pause_writes = tl.pause_writes)
    (hr : ul.pause_reads = tl.pause_reads)
    (hnd : tl.pending_set_nodelay = false)
    (hguard : p.wrIsEof = false ∨ p.rdAborted = false) :
    ((tl.process_out s p).1 = (ul.process_out s p).1 ∧
      (tl.process_out s p).2.2.1 = (ul.process_out s p).2.2.1 ∧
      (tl.process_out s p).2.2.2 = (ul.process_out s p).2.2.2 ∧
      (tl.process_out s p).2.1 = tl ∧ (ul.process_out s p).2.1 = ul) ∧
    ((tl.process_in r p).1 = (ul.process_in r p).1 ∧
      (tl.process_in r p).2.1 = (ul.process_in r p).2.1 ∧
      (tl.process_in r p).2.2 = (ul.process_in r p).2.2) := by
  have h1 := tcp_unix_out_agree tl ul s p hw hnd hguard
  have h2 := tcp_unix_in_agree tl ul r p hm hr
  rw [h1, h2]
  exact ⟨⟨rfl, rfl, rfl, tcp_out_link tl s p hnd, rfl⟩, rfl, rfl, rfl⟩

/-- Witness for the amended C8 at a concrete pair of connectors. -/
theorem C8_amended_equivalence_witness :
    (⟨2048, false, false, false, false⟩ : TcpLink).pending_set_nodelay =
      false ∧
    (TcpLink.process_out ⟨2048, false, false, false, false⟩
        ⟨([], Except.ok ()), [Except.ok 2], ([], Except.ok ())⟩
        ⟨[1, 2], true, true, [], false, false⟩).2.2.1 =
      (UnixStreamLink.process_out ⟨2048, false, false⟩
        ⟨([], Except.ok ()), [Except.ok 2], ([], Except.ok ())⟩
        ⟨[1, 2], true, true, [], false, false⟩).2.2.1 :=
  ⟨rfl,
    ((C8_amended_equivalence ⟨2048, false, false, false, false⟩
      ⟨2048, false, false⟩
      ⟨([], Except.ok ()), [Except.ok 2], ([], Except.ok ())⟩
      (Except.ok []) ⟨[1, 2], true, true, [], false, false⟩ rfl rfl rfl rfl
      (Or.inl rfl)).1).2.1⟩

end PipebufMio
